import Mathlib

/-!
Verification development for the beartype type-checking function code
factories (`beartype._check.checkmake`), the argumentative validator factory
(`beartype.vale._is._valeisargumentative`), and their helpers.

The factories under `beartype._check.checkmake` orchestrate external
collaborators (hint sanitization, expression compilation, function synthesis,
configuration validation).  Those collaborators are abstracted into an `Env`
structure of function fields; the orchestration logic itself is translated
statement-for-statement from the source.  Helpers of this repository that the
source imports but whose code is not part of the translated sources are
modelled from the specification and marked as such in their doc comments.
-/

/-- Digit character for one decimal digit (values ten or greater clamp to the
character for nine; all call sites pass a value below ten). -/
def nat_decimal_digit : Nat → Char
  | 0 => '0'
  | 1 => '1'
  | 2 => '2'
  | 3 => '3'
  | 4 => '4'
  | 5 => '5'
  | 6 => '6'
  | 7 => '7'
  | 8 => '8'
  | _ => '9'

/-- Fuel-driven decimal rendering of a natural number, most significant digit
first.  Fuel `n + 1` always suffices for rendering `n`. -/
def nat_decimal_go (fuel : Nat) (n : Nat) : List Char :=
  match fuel with
  | 0 => []
  | fuel' + 1 =>
    if n < 10 then [nat_decimal_digit n]
    else nat_decimal_go fuel' (n / 10) ++ [nat_decimal_digit (n % 10)]

/-- Modelled from the spec: the rendering of the uniquifying integer into the
generated function name (the host language's integer-to-text conversion). -/
def nat_decimal (n : Nat) : String :=
  String.mk (nat_decimal_go (n + 1) n)

/-- Decimal parsing used only to establish that `nat_decimal` is injective. -/
def nat_undecimal_go (acc : Nat) : List Char → Nat
  | [] => acc
  | c :: rest => nat_undecimal_go (acc * 10 + (c.toNat - 48)) rest

/-- Type hints, treated as externally supplied type-descriptor values.  The
constructors are representatives sufficient to name concrete hints; all
semantic treatment of hints is delegated to collaborator functions. -/
inductive Hint where
  | any
  | simple (name : String)
  | ref (name : String)
  | custom (id : Nat)
  deriving DecidableEq

/-- Representation of a hint used in generated error-message text. -/
def hint_repr : Hint → String
  | Hint.any => ("typing.Any")
  | Hint.simple n => n
  | Hint.ref n => n
  | Hint.custom i => ("custom") ++ nat_decimal i

/-- Beartype configuration: the immutable switches that the translated code
reads.  `is_violation_param_warn`, `is_violation_return_warn` and
`is_violation_door_warn` are the three independent warn-versus-raise policy
switches; `is_debug` is the debug flag. -/
structure BeartypeConf where
  is_violation_param_warn : Bool
  is_violation_return_warn : Bool
  is_violation_door_warn : Bool
  is_debug : Bool
  deriving DecidableEq

/-- A pure-Python callable as the validator factory sees it: its parameter
names in declaration order, whether it is pure Python (as opposed to
C-based or uncallable), and an identity used for uniquified scope names. -/
structure PyFunc where
  argNames : List String
  isPurePython : Bool
  fid : Nat
  deriving DecidableEq

/-- Runtime objects bound into the lexical scope of a generated function. -/
inductive Obj where
  | confObj (c : BeartypeConf)
  | warnFunc
  | getViolationFunc
  | getFuncPithViolationFunc
  | hintObj (h : Hint)
  | validatorFunc (f : PyFunc)
  | plain (n : Nat)
  deriving DecidableEq

/-- Lexical scope: mapping from generated names to bound runtime objects. -/
abbrev LexicalScope := List (String × Obj)

/-- Error taxonomy of the factories, following the spec's classification. -/
inductive ErrKind where
  | confError
  | hintUnsupported
  | portability
  | invalidGeneratedCode
  | valeSubscription
  | other (s : String)
  deriving DecidableEq

/-- An exception value: its class (kind) and its message text. -/
structure Err where
  kind : ErrKind
  msg : String
  deriving DecidableEq

/-- Result triple of a code factory: code snippet, lexical scope, and the
ordered unresolved relative forward-reference basenames. -/
structure CodeGenerated where
  func_code : String
  func_scope : LexicalScope
  hint_refs_type_basename : List String
  deriving DecidableEq

/-- A check artifact returned by the factories: either the ignorable
constant-true singleton or a freshly synthesized function. -/
inductive Checker where
  | ignorable
  | synthesized (name : String) (code : String) (scope : LexicalScope)
  deriving DecidableEq

/-- Runtime values passed to a checker. -/
inductive Value where
  | vnone
  | vint (n : Int)
  | vstr (s : String)
  | vbool (b : Bool)
  | vcustom (id : Nat)
  deriving DecidableEq

/-- Outcome of invoking a checker artifact on a value. -/
inductive InvokeOutcome where
  | returned (v : Value)
  | raised (e : Err)
  | warned (w : String) (v : Value)
  deriving DecidableEq

/-- External collaborators of the checker factory, specified only through
their interfaces (spec section 6).  Warnings issued by a collaborator are
returned alongside its result, modelling the captured-warnings scope. -/
structure Env where
  die_unless_conf : BeartypeConf → Except Err Unit
  sanify_hint_root_statement : Hint → BeartypeConf → Except Err Hint × List String
  is_hint_ignorable : Hint → Bool
  make_check_expr :
    Hint → BeartypeConf → Option (List Hint) → Except Err CodeGenerated × List String
  make_func_signature : String → LexicalScope → BeartypeConf → String
  make_func : String → String → LexicalScope → Bool → Except Err Unit
  invoke_artifact : String → LexicalScope → Value → Nat → InvokeOutcome

/-- Modelled from the spec: the placeholder substring embedded in exception
and warning messages, later replaced by a description of the call site. -/
def EXCEPTION_PLACEHOLDER : String := "~~beartype_placeholder~~"

/-- Modelled from the spec: hidden-parameter name for the configuration. -/
def ARG_NAME_CONF : String := "__beartype_conf"

/-- Modelled from the spec: hidden-parameter name for the random-bits
generator threaded into sampled container checks. -/
def ARG_NAME_GETRANDBITS : String := "__beartype_getrandbits"

/-- Modelled from the spec: hidden-parameter name for the violation getter. -/
def ARG_NAME_GET_VIOLATION : String := "__beartype_get_violation"

/-- Modelled from the spec: hidden-parameter name for the root type hint. -/
def ARG_NAME_HINT : String := "__beartype_hint"

/-- Modelled from the spec: hidden-parameter name for the warning emitter. -/
def ARG_NAME_WARN : String := "__beartype_warn"

/-- Modelled from the spec: placeholder for the root pith name in generated
raiser code. -/
def CODE_PITH_ROOT_NAME_PLACEHOLDER : String := "~~pith_root_name~~"

/-- Modelled from the spec: stem of the uniquified name of every synthesized
type-checking function (source constant `FUNC_CHECKER_NAME_` followed by the
word for stem). -/
def FUNC_CHECKER_NAME_STEM : String := "__beartype_checker_"

/-- Modelled from the spec: leading snippet of tester check code (source
constant named with the tester-check head suffix). -/
def CODE_TESTER_CHECK_HEAD : String := "    return "

/-- Modelled from the spec: leading snippet of the pith-raiser check code. -/
def CODE_RAISER_FUNC_PITH_CHECK_HEAD : String := "    if not "

/-- Modelled from the spec: leading snippet of the object-raiser check. -/
def CODE_RAISER_HINT_OBJECT_CHECK_HEAD : String := "    if not "

/-- Modelled from the spec: snippet passing the per-call random integer to
the violation getter. -/
def CODE_GET_VIOLATION_RANDOM_INT : String := ", random_int=__beartype_random_int"

/-- Modelled from the spec: snippet passing the class stack to the violation
getter. -/
def CODE_GET_VIOLATION_CLS_STACK : String := ", cls_stack=__beartype_cls_stack"

/-- Modelled from the spec: snippet raising the violation as a fatal
exception. -/
def CODE_RAISE_VIOLATION : String := "        raise violation"

/-- Modelled from the spec: snippet emitting the violation as a non-fatal
warning. -/
def CODE_WARN_VIOLATION : String := "        __beartype_warn(violation)"

/-- Modelled from the spec: template building the call to the
parameter-or-return violation getter, filled with the class-stack snippet,
random-integer snippet, and pith name. -/
def code_get_func_pith_violation
    (arg_cls_stack arg_random_int pith_name : String) : String :=
  ("        violation = __beartype_get_violation(pith_name=") ++ pith_name ++
    arg_cls_stack ++ arg_random_int ++ (")\n")

/-- Modelled from the spec: template building the call to the arbitrary-object
violation getter, filled with the random-integer snippet. -/
def code_get_hint_object_violation (arg_random_int : String) : String :=
  ("        violation = __beartype_get_violation(obj") ++ arg_random_int ++ (")\n")

/-- Modelled from the spec: default human-readable call-site label used by the
factories when raising or re-issuing (source default of the factory's
exception-label parameter). -/
def EXCEPTION_LABEL_DEFAULT : String := "die_if_unbearable() or is_bearable() "

/-- Look a key up in a lexical scope (dictionary membership test). -/
def scope_has_key (scope : LexicalScope) (key : String) : Bool :=
  match scope with
  | [] => false
  | (k, _) :: rest => k = key || scope_has_key rest key

/-- Set a key in a lexical scope (dictionary item assignment). -/
def scope_set (scope : LexicalScope) (key : String) (val : Obj) : LexicalScope :=
  match scope with
  | [] => [(key, val)]
  | (k, v) :: rest =>
    if k = key then (key, val) :: rest else (k, v) :: scope_set rest key val

/-- Modelled from the spec: re-raises an exception with every placeholder
substring in its message replaced by the call-site description; the exception
kind (class) is preserved and no other transformation is applied. -/
def reraise_exception_placeholder (e : Err) (target : String) : Err :=
  Err.mk e.kind (String.replace e.msg EXCEPTION_PLACEHOLDER target)

/-- Modelled from the spec: re-issues captured warnings with every placeholder
substring in their messages replaced by the call-site description. -/
def reissue_warnings_placeholder (warnings : List String) (target : String) :
    List String :=
  warnings.map (fun w => String.replace w EXCEPTION_PLACEHOLDER target)

/-- Modelled from the spec: the forward-reference getter invoked when the
compiled check contains an unresolved relative forward reference.  Called by
the factory without any owning callable or class, it always fails: relative
forward references are rejected outright (portability failure). -/
def get_hint_pep484585_ref_names_relative_to
    (hint_ref : String) (exception_label : String) : Err :=
  Err.mk ErrKind.portability
    (exception_label ++ ("relative forward reference ") ++ hint_ref ++
      (" unresolvable"))

/-- Translated from `checkmake._make_code_raiser_violation`: code snippet
either raising the violation as a fatal exception or emitting it as a
non-fatal warning, selected by the tri-state pith boolean `is_param` and the
matching configuration switch; also passes the needed hidden parameters into
the scope.  Returns the snippet together with the updated scope. -/
def make_code_raiser_violation (conf : BeartypeConf) (func_scope : LexicalScope)
    (is_param : Option Bool) : String × LexicalScope :=
  let scope1 := scope_set func_scope ARG_NAME_CONF (Obj.confObj conf)
  if (match is_param with
      | none => conf.is_violation_door_warn
      | some b => if b then conf.is_violation_param_warn
                  else conf.is_violation_return_warn) then
    (CODE_WARN_VIOLATION, scope_set scope1 ARG_NAME_WARN Obj.warnFunc)
  else
    (CODE_RAISE_VIOLATION, scope1)

/-- Translated from `checkmake.make_code_tester_check`: code snippet of a
tester function returning whether the object satisfies the hint. -/
def make_code_tester_check (env : Env) (hint : Hint) (conf : BeartypeConf) :
    Except Err CodeGenerated × List String :=
  match env.make_check_expr hint conf none with
  | (Except.error e, ws) => (Except.error e, ws)
  | (Except.ok cg, ws) =>
    (Except.ok
      (CodeGenerated.mk (CODE_TESTER_CHECK_HEAD ++ cg.func_code)
        cg.func_scope cg.hint_refs_type_basename), ws)

/-- Translated from `checkmake.make_code_raiser_hint_object_check`: code
snippet of a raiser function checking an arbitrary object against the hint,
raising or warning on violation. -/
def make_code_raiser_hint_object_check (env : Env) (hint : Hint)
    (conf : BeartypeConf) : Except Err CodeGenerated × List String :=
  match env.make_check_expr hint conf none with
  | (Except.error e, ws) => (Except.error e, ws)
  | (Except.ok cg, ws) =>
    let arg_random_int :=
      if scope_has_key cg.func_scope ARG_NAME_GETRANDBITS then
        CODE_GET_VIOLATION_RANDOM_INT
      else ("")
    let scope1 :=
      scope_set (scope_set cg.func_scope ARG_NAME_GET_VIOLATION
          Obj.getViolationFunc)
        ARG_NAME_HINT (Obj.hintObj hint)
    let code_get_violation := code_get_hint_object_violation arg_random_int
    let handled := make_code_raiser_violation conf scope1 none
    (Except.ok
      (CodeGenerated.mk
        (CODE_RAISER_HINT_OBJECT_CHECK_HEAD ++ cg.func_code ++
          code_get_violation ++ handled.fst)
        handled.snd cg.hint_refs_type_basename), ws)

/-- Translated from `checkmake.make_code_raiser_func_pith_check`: code snippet
of a raiser function checking a previously localized parameter or return of a
decorated callable, raising or warning on violation. -/
def make_code_raiser_func_pith_check (env : Env) (hint : Hint)
    (conf : BeartypeConf) (cls_stack : Option (List Hint))
    (is_param : Option Bool) : Except Err CodeGenerated × List String :=
  match env.make_check_expr hint conf cls_stack with
  | (Except.error e, ws) => (Except.error e, ws)
  | (Except.ok cg, ws) =>
    let arg_random_int :=
      if scope_has_key cg.func_scope ARG_NAME_GETRANDBITS then
        CODE_GET_VIOLATION_RANDOM_INT
      else ("")
    let arg_cls_stack :=
      match cls_stack with
      | some (_ :: _) => CODE_GET_VIOLATION_CLS_STACK
      | _ => ("")
    let scope1 :=
      scope_set cg.func_scope ARG_NAME_GET_VIOLATION
        Obj.getFuncPithViolationFunc
    let code_get_violation :=
      code_get_func_pith_violation arg_cls_stack arg_random_int
        CODE_PITH_ROOT_NAME_PLACEHOLDER
    let handled := make_code_raiser_violation conf scope1 is_param
    (Except.ok
      (CodeGenerated.mk
        (CODE_RAISER_FUNC_PITH_CHECK_HEAD ++ cg.func_code ++
          code_get_violation ++ handled.fst)
        handled.snd cg.hint_refs_type_basename), ws)

/-- Outcome of one (unmemoized) checker-factory request: the result or
exception, the warnings re-issued to the caller, the number of invocations of
the code-check factory, and the next value of the process-wide name counter. -/
structure CheckerOutcome where
  result : Except Err Checker
  warnings_emitted : List String
  code_factory_calls : Nat
  counter_next : Nat

/-- Translated from `checkmake._func_checker_ignorable` and
`checkmake._make_func_checker`: validate the configuration, sanitize the
hint, short-circuit to the ignorable constant-true singleton, otherwise
compile, reject unresolved relative forward references, uniquify a function
name from the process-wide counter, synthesize the function, and re-issue
captured warnings; any exception raised along the way is re-raised with the
placeholder replaced by the call-site label. -/
def _make_func_checker (env : Env) (hint : Hint) (conf : BeartypeConf)
    (make_code_check : Hint → BeartypeConf → Except Err CodeGenerated × List String)
    (exception_label : String) (counter : Nat) : CheckerOutcome :=
  match env.die_unless_conf conf with
  | Except.error e =>
    CheckerOutcome.mk
      (Except.error (reraise_exception_placeholder e exception_label))
      [] 0 counter
  | Except.ok _ =>
  match env.sanify_hint_root_statement hint conf with
  | (Except.error e, _) =>
    CheckerOutcome.mk
      (Except.error (reraise_exception_placeholder e exception_label))
      [] 0 counter
  | (Except.ok hint_sane, ws1) =>
  if env.is_hint_ignorable hint_sane then
    CheckerOutcome.mk (Except.ok Checker.ignorable) [] 0 counter
  else
  match make_code_check hint_sane conf with
  | (Except.error e, _) =>
    CheckerOutcome.mk
      (Except.error (reraise_exception_placeholder e exception_label))
      [] 1 counter
  | (Except.ok cg, ws2) =>
  match cg.hint_refs_type_basename with
  | ref_name :: _ =>
    CheckerOutcome.mk
      (Except.error (reraise_exception_placeholder
        (get_hint_pep484585_ref_names_relative_to ref_name
          (EXCEPTION_PLACEHOLDER ++ ("type hint ") ++ hint_repr hint ++ (" ")))
        exception_label))
      [] 1 counter
  | [] =>
  match env.make_func (FUNC_CHECKER_NAME_STEM ++ nat_decimal counter)
      (env.make_func_signature (FUNC_CHECKER_NAME_STEM ++ nat_decimal counter)
        cg.func_scope conf ++ cg.func_code)
      cg.func_scope conf.is_debug with
  | Except.error e =>
    CheckerOutcome.mk
      (Except.error (reraise_exception_placeholder e exception_label))
      [] 1 (counter + 1)
  | Except.ok _ =>
    CheckerOutcome.mk
      (Except.ok (Checker.synthesized
        (FUNC_CHECKER_NAME_STEM ++ nat_decimal counter)
        (env.make_func_signature (FUNC_CHECKER_NAME_STEM ++ nat_decimal counter)
          cg.func_scope conf ++ cg.func_code)
        cg.func_scope))
      (reissue_warnings_placeholder (ws1 ++ ws2) exception_label)
      1 (counter + 1)

/-- Invoke a checker artifact on a value with one per-call random draw.  The
ignorable singleton unconditionally returns the boolean true (source
`_func_checker_ignorable`); synthesized artifacts run their compiled code. -/
def checker_call (env : Env) : Checker → Value → Nat → InvokeOutcome
  | Checker.ignorable, _, _ => InvokeOutcome.returned (Value.vbool true)
  | Checker.synthesized _ code scope, v, r => env.invoke_artifact code scope v r

/-- Process-wide mutable state of the factories: the monotonically increasing
name counter and the unbounded memo tables keyed by hint and configuration. -/
structure FactoryState where
  name_counter : Nat
  tester_memo : List ((Hint × BeartypeConf) × Except Err Checker)
  raiser_memo : List ((Hint × BeartypeConf) × Except Err Checker)

/-- Memo-table lookup by key. -/
def find_memo (memo : List ((Hint × BeartypeConf) × Except Err Checker))
    (key : Hint × BeartypeConf) : Option (Except Err Checker) :=
  match memo with
  | [] => none
  | (k, v) :: rest => if k = key then some v else find_memo rest key

/-- Observable outcome of one memoized factory call, together with the
factory state after the call. -/
structure FactoryCall where
  result : Except Err Checker
  warnings_emitted : List String
  code_factory_calls : Nat
  state : FactoryState

/-- Translated from `checkmake.make_func_tester`; the memoization wrapper is
modelled from the spec: results are cached for process lifetime in an
unbounded memo keyed by hint and configuration, and a repeated call returns
the identical cached artifact without recompiling. -/
def make_func_tester (env : Env) (hint : Hint) (conf : BeartypeConf)
    (st : FactoryState) : FactoryCall :=
  match find_memo st.tester_memo (hint, conf) with
  | some r => FactoryCall.mk r [] 0 st
  | none =>
    let o := _make_func_checker env hint conf (make_code_tester_check env)
      EXCEPTION_LABEL_DEFAULT st.name_counter
    FactoryCall.mk o.result o.warnings_emitted o.code_factory_calls
      (FactoryState.mk o.counter_next
        (((hint, conf), o.result) :: st.tester_memo) st.raiser_memo)

/-- Translated from `checkmake.make_func_raiser`; the memoization wrapper is
modelled from the spec exactly as for the tester factory. -/
def make_func_raiser (env : Env) (hint : Hint) (conf : BeartypeConf)
    (st : FactoryState) : FactoryCall :=
  match find_memo st.raiser_memo (hint, conf) with
  | some r => FactoryCall.mk r [] 0 st
  | none =>
    let o := _make_func_checker env hint conf
      (make_code_raiser_hint_object_check env)
      EXCEPTION_LABEL_DEFAULT st.name_counter
    FactoryCall.mk o.result o.warnings_emitted o.code_factory_calls
      (FactoryState.mk o.counter_next st.tester_memo
        (((hint, conf), o.result) :: st.raiser_memo))

/-- The warnings issued inside the captured-warnings scope of one factory
request, in order of emission along the executed control path. -/
def captured_warnings (env : Env) (hint : Hint) (conf : BeartypeConf)
    (make_code_check : Hint → BeartypeConf → Except Err CodeGenerated × List String) :
    List String :=
  match env.die_unless_conf conf with
  | Except.error _ => []
  | Except.ok _ =>
  match env.sanify_hint_root_statement hint conf with
  | (Except.error _, ws) => ws
  | (Except.ok hint_sane, ws1) =>
    if env.is_hint_ignorable hint_sane then ws1
    else ws1 ++ (make_code_check hint_sane conf).snd

/-- A beartype validator as produced by the argumentative factory: the wrapped
callable, the check-expression snippet, the scope binding its uniquified name,
the target argument name and the remaining argument names. -/
structure BeartypeValidator where
  is_valid : PyFunc
  is_valid_code : String
  is_valid_code_locals : LexicalScope
  is_valid_target_arg_name : String
  is_valid_remaining_arg_names : List String
  deriving DecidableEq

/-- Modelled from the spec (callable-arity checker imported by
`_valeutilfunc.die_unless_validator_tester`): fails with a subscription
exception unless the object is a pure-Python callable accepting at least one
flexible argument. -/
def die_unless_validator_tester (f : PyFunc) : Except Err Unit :=
  if f.isPurePython = true ∧ 1 ≤ f.argNames.length then Except.ok ()
  else
    Except.error (Err.mk ErrKind.valeSubscription
      ("validator not a pure-Python callable accepting one or more arguments"))

/-- Modelled from the spec: binds an attribute into a function scope under a
uniquified generated name and returns that name with the updated scope. -/
def add_func_scope_attr (f : PyFunc) (func_scope : LexicalScope) :
    String × LexicalScope :=
  let name := ("__beartype_vale_func_") ++ nat_decimal f.fid
  (name, scope_set func_scope name (Obj.validatorFunc f))

/-- Translated from `_valeisargumentative.generate_additional_arg_string`
(the nested helper of `_IsArgumentativeFactory.__getitem__`): renders the
comma-separated additional arguments of the validator call. -/
def generate_additional_arg_string : List String → String
  | [] => ("")
  | [a] => (", ") ++ a
  | a :: b :: rest => (", ") ++ a ++ generate_additional_arg_string (b :: rest)

/-- Stated from the claim's words, for comparison with the source helper: the
concatenation over the names, in order, of a comma-space followed by the
name. -/
def additional_arg_string_spec : List String → String
  | [] => ("")
  | a :: rest => (", ") ++ a ++ additional_arg_string_spec rest

/-- Translated from `_valeisargumentative._IsArgumentativeFactory.__getitem__`:
validate the subscripted callable, split its argument names into the target
argument and the remaining arguments, bind the callable into the scope under a
uniquified name, and build the check-expression snippet calling that name on
the root-object placeholder followed by the remaining arguments. -/
def is_argumentative_getitem (is_valid : PyFunc) :
    Except Err BeartypeValidator :=
  match die_unless_validator_tester is_valid with
  | Except.error e => Except.error e
  | Except.ok _ =>
  match is_valid.argNames with
  | [] =>
    Except.error (Err.mk ErrKind.valeSubscription
      ("validator accepts no arguments"))
  | target_arg :: remaining_args =>
    let bound := add_func_scope_attr is_valid []
    let is_valid_code_header := bound.fst ++ ("({obj}")
    let is_valid_code_args := generate_additional_arg_string remaining_args
    let is_valid_code_footer := (")")
    let is_valid_code :=
      is_valid_code_header ++ is_valid_code_args ++ is_valid_code_footer
    Except.ok
      (BeartypeValidator.mk is_valid is_valid_code bound.snd target_arg
        remaining_args)

/-- Claim C5 as stated: two testers obtained from two successive factory calls
for the same hint and configuration, each applied once to the same value (each
application drawing its own per-call random integer), return the same result. -/
def c5_claim_prop : Prop :=
  ∀ (env : Env) (hint : Hint) (conf : BeartypeConf) (st : FactoryState)
    (v : Value) (r1 r2 : Nat) (t1 t2 : Checker),
    (make_func_tester env hint conf st).result = Except.ok t1 →
    (make_func_tester env hint conf
      (make_func_tester env hint conf st).state).result = Except.ok t2 →
    checker_call env t1 v r1 = checker_call env t2 v r2

/-- Claim C7 as stated: every warning issued during a factory request's
validation, sanitization, compilation and synthesis is re-issued to the caller
with the placeholder replaced; none is swallowed. -/
def c7_claim_prop : Prop :=
  ∀ (env : Env) (hint : Hint) (conf : BeartypeConf)
    (make_code_check : Hint → BeartypeConf → Except Err CodeGenerated × List String)
    (label : String) (counter : Nat),
    (_make_func_checker env hint conf make_code_check label counter).warnings_emitted
      = reissue_warnings_placeholder
          (captured_warnings env hint conf make_code_check) label

/-- Base collaborator environment for concrete instantiations: validation and
synthesis succeed, sanitization is the identity with no warnings, no hint is
ignorable, and compilation yields a reference-free check expression.  The
artifact semantics returns true exactly when the per-call random draw is
zero (container-sampling checks depend on the per-call draw by design). -/
def env_base : Env :=
  { die_unless_conf := fun _ => Except.ok ()
    sanify_hint_root_statement := fun h _ => (Except.ok h, [])
    is_hint_ignorable := fun _ => false
    make_check_expr := fun _ _ _ =>
      (Except.ok (CodeGenerated.mk ("EXPR") [] []), [])
    make_func_signature := fun n _ _ => ("def ") ++ n ++ ("(obj):\n")
    make_func := fun _ _ _ _ => Except.ok ()
    invoke_artifact := fun _ _ _ r =>
      InvokeOutcome.returned (Value.vbool (r == 0)) }

/-- Environment in which every sanitized hint is ignorable. -/
def env_ignorable : Env :=
  { env_base with is_hint_ignorable := fun _ => true }

/-- Environment in which compilation reports one unresolved relative forward
reference. -/
def env_fwdref : Env :=
  { env_base with
    make_check_expr := fun _ _ _ =>
      (Except.ok (CodeGenerated.mk ("EXPR") [] [("T")]), []) }

/-- Environment in which sanitization issues a deprecation warning carrying
the placeholder and the sanitized hint is ignorable. -/
def env_warn_ignorable : Env :=
  { env_base with
    sanify_hint_root_statement := fun h _ =>
      (Except.ok h, [("deprecated hint warning ") ++ EXCEPTION_PLACEHOLDER])
    is_hint_ignorable := fun _ => true }

/-- Environment in which sanitization fails with an unsupported-hint
exception whose message carries the placeholder. -/
def env_sanify_err : Env :=
  { env_base with
    sanify_hint_root_statement := fun _ _ =>
      (Except.error (Err.mk ErrKind.hintUnsupported
        (("unsupported hint ") ++ EXCEPTION_PLACEHOLDER ++ ("tail"))), []) }

/-- The initial factory state: counter at zero, both memo tables empty. -/
def st0 : FactoryState := FactoryState.mk 0 [] []

/-- The default configuration: raise on violation everywhere, no debugging. -/
def conf0 : BeartypeConf := BeartypeConf.mk false false false false

/-- A configuration with all three warn-on-violation switches enabled. -/
def conf_warn : BeartypeConf := BeartypeConf.mk true true true false

/-- The checker produced by the tester factory in `env_base` from the initial
state, used to name the artifact in concrete counterexamples. -/
def checker_env_base : Checker :=
  match (make_func_tester env_base (Hint.simple ("s")) conf0 st0).result with
  | Except.ok c => c
  | Except.error _ => Checker.ignorable

/-- A concrete validator callable with a target parameter and two additional
parameters, used for concrete instantiation. -/
def fW : PyFunc := PyFunc.mk [("t"), ("a1"), ("a2")] true 5

theorem nat_undecimal_go_cons (acc : Nat) (x : Char) (l : List Char) :
    nat_undecimal_go acc (x :: l)
      = nat_undecimal_go (acc * 10 + (x.toNat - 48)) l := rfl

theorem nat_undecimal_go_append (xs : List Char) (c : Char) :
    ∀ acc, nat_undecimal_go acc (xs ++ [c])
      = nat_undecimal_go acc xs * 10 + (c.toNat - 48) := by
  induction xs with
  | nil => intro acc; rfl
  | cons x rest ih =>
    intro acc
    rw [List.cons_append, nat_undecimal_go_cons, nat_undecimal_go_cons]
    exact ih (acc * 10 + (x.toNat - 48))

theorem nat_decimal_digit_val (d : Nat) (hd : d < 10) :
    (nat_decimal_digit d).toNat - 48 = d := by
  interval_cases d <;> decide

theorem nat_undecimal_go_nil (acc : Nat) : nat_undecimal_go acc [] = acc := rfl

theorem nat_decimal_go_succ (fuel n : Nat) :
    nat_decimal_go (fuel + 1) n
      = if n < 10 then [nat_decimal_digit n]
        else nat_decimal_go fuel (n / 10) ++ [nat_decimal_digit (n % 10)] := rfl

theorem nat_undecimal_nat_decimal_go (fuel : Nat) :
    ∀ n, n < fuel → nat_undecimal_go 0 (nat_decimal_go fuel n) = n := by
  induction fuel with
  | zero => intro n hn; omega
  | succ fuel' ih =>
    intro n hn
    rw [nat_decimal_go_succ]
    by_cases h10 : n < 10
    · rw [if_pos h10, nat_undecimal_go_cons, nat_undecimal_go_nil]
      have hv := nat_decimal_digit_val n h10
      omega
    · rw [if_neg h10, nat_undecimal_go_append, ih (n / 10) (by omega),
        nat_decimal_digit_val (n % 10) (by omega)]
      omega

theorem nat_decimal_inj {m n : Nat} (h : nat_decimal m = nat_decimal n) :
    m = n := by
  have hlist : nat_decimal_go (m + 1) m = nat_decimal_go (n + 1) n := by
    have := congrArg String.data h
    simpa [nat_decimal] using this
  have hm := nat_undecimal_nat_decimal_go (m + 1) m (by omega)
  have hn := nat_undecimal_nat_decimal_go (n + 1) n (by omega)
  rw [hlist] at hm
  rw [hm] at hn
  exact hn

theorem string_append_left_cancel {s a b : String} (h : s ++ a = s ++ b) :
    a = b := by
  apply String.ext
  have hd := congrArg String.data h
  simp only [String.data_append] at hd
  exact List.append_cancel_left hd

theorem checker_name_inj {m n : Nat}
    (h : FUNC_CHECKER_NAME_STEM ++ nat_decimal m
      = FUNC_CHECKER_NAME_STEM ++ nat_decimal n) : m = n :=
  nat_decimal_inj (string_append_left_cancel h)

theorem make_func_checker_ok_synthesized (env : Env) (hint : Hint)
    (conf : BeartypeConf)
    (mcc : Hint → BeartypeConf → Except Err CodeGenerated × List String)
    (label : String) (k : Nat) (nm cd : String) (sc : LexicalScope)
    (h : (_make_func_checker env hint conf mcc label k).result
      = Except.ok (Checker.synthesized nm cd sc)) :
    nm = FUNC_CHECKER_NAME_STEM ++ nat_decimal k ∧
      (_make_func_checker env hint conf mcc label k).counter_next = k + 1 := by
  unfold _make_func_checker at h ⊢
  repeat' split at h
  all_goals simp_all

theorem scope_has_key_scope_set (s : LexicalScope) (k : String) (v : Obj) :
    scope_has_key (scope_set s k v) k = true := by
  induction s with
  | nil => simp [scope_set, scope_has_key]
  | cons p rest ih =>
    by_cases hk : p.fst = k
    · simp [scope_set, hk, scope_has_key]
    · cases p with
      | mk k2 v2 =>
        simp only at hk
        simp [scope_set, hk, scope_has_key, ih]

theorem make_func_tester_second_call (env : Env) (hint : Hint)
    (conf : BeartypeConf) (st : FactoryState) :
    (make_func_tester env hint conf
        (make_func_tester env hint conf st).state).result
      = (make_func_tester env hint conf st).result ∧
    (make_func_tester env hint conf
        (make_func_tester env hint conf st).state).code_factory_calls = 0 ∧
    (make_func_tester env hint conf
        (make_func_tester env hint conf st).state).state
      = (make_func_tester env hint conf st).state := by
  unfold make_func_tester
  cases hf : find_memo st.tester_memo (hint, conf) with
  | some r => simp [hf]
  | none => simp [hf, find_memo]

/-- C1: for every hint that sanitizes to an ignorable hint under a valid
configuration, the tester factory returns the constant-true ignorable checker,
the expression-compiler code factory is never invoked on that request, and the
returned checker returns true for every tested value and every per-call
random draw. -/
theorem make_func_tester_ignorable_short_circuit (env : Env) (hint : Hint)
    (conf : BeartypeConf) (st : FactoryState) (hint_sane : Hint)
    (ws : List String)
    (hconf : env.die_unless_conf conf = Except.ok ())
    (hsan : env.sanify_hint_root_statement hint conf
      = (Except.ok hint_sane, ws))
    (hig : env.is_hint_ignorable hint_sane = true)
    (hmiss : find_memo st.tester_memo (hint, conf) = none) :
    (make_func_tester env hint conf st).result = Except.ok Checker.ignorable ∧
    (make_func_tester env hint conf st).code_factory_calls = 0 ∧
    ∀ (v : Value) (r : Nat),
      checker_call env Checker.ignorable v r
        = InvokeOutcome.returned (Value.vbool true) := by
  simp [make_func_tester, hmiss, _make_func_checker, hconf, hsan, hig,
    checker_call]

/-- C1 witness: in a concrete ignorable environment, the tester factory
short-circuits to the constant-true checker without invoking the code factory,
and the checker returns true on the none value, the integer zero, and a custom
object. -/
theorem make_func_tester_ignorable_short_circuit_witness :
    (make_func_tester env_ignorable Hint.any conf0 st0).result
      = Except.ok Checker.ignorable ∧
    (make_func_tester env_ignorable Hint.any conf0 st0).code_factory_calls
      = 0 ∧
    checker_call env_ignorable Checker.ignorable Value.vnone 0
      = InvokeOutcome.returned (Value.vbool true) ∧
    checker_call env_ignorable Checker.ignorable (Value.vint 0) 1
      = InvokeOutcome.returned (Value.vbool true) ∧
    checker_call env_ignorable Checker.ignorable (Value.vcustom 7) 2
      = InvokeOutcome.returned (Value.vbool true) := by
  have h := make_func_tester_ignorable_short_circuit env_ignorable Hint.any
    conf0 st0 Hint.any [] rfl rfl rfl rfl
  exact ⟨h.1, h.2.1, h.2.2 Value.vnone 0, h.2.2 (Value.vint 0) 1,
    h.2.2 (Value.vcustom 7) 2⟩

/-- C2: whenever the compiled check reports at least one unresolved relative
forward reference, the checker factory fails with a portability-kind
exception and never returns a checker artifact. -/
theorem make_func_checker_forward_ref_portability (env : Env) (hint : Hint)
    (conf : BeartypeConf)
    (mcc : Hint → BeartypeConf → Except Err CodeGenerated × List String)
    (label : String) (k : Nat) (hint_sane : Hint) (ws : List String)
    (cg : CodeGenerated) (ws2 : List String) (r : String) (rs : List String)
    (hconf : env.die_unless_conf conf = Except.ok ())
    (hsan : env.sanify_hint_root_statement hint conf
      = (Except.ok hint_sane, ws))
    (hig : env.is_hint_ignorable hint_sane = false)
    (hm : mcc hint_sane conf = (Except.ok cg, ws2))
    (hrefs : cg.hint_refs_type_basename = r :: rs) :
    ∃ e : Err,
      (_make_func_checker env hint conf mcc label k).result = Except.error e ∧
      e.kind = ErrKind.portability := by
  refine ⟨reraise_exception_placeholder
    (get_hint_pep484585_ref_names_relative_to r
      (EXCEPTION_PLACEHOLDER ++ ("type hint ") ++ hint_repr hint ++ (" ")))
    label, ?_, rfl⟩
  simp [_make_func_checker, hconf, hsan, hig, hm, hrefs]

/-- C2 witness: in a concrete environment whose compiler reports one
unresolved relative forward reference, the factory request fails with a
portability-kind exception. -/
theorem make_func_checker_forward_ref_portability_witness :
    ∃ e : Err,
      (_make_func_checker env_fwdref (Hint.simple ("x")) conf0
        (make_code_tester_check env_fwdref) ("L") 0).result
        = Except.error e ∧
      e.kind = ErrKind.portability :=
  make_func_checker_forward_ref_portability env_fwdref (Hint.simple ("x"))
    conf0 (make_code_tester_check env_fwdref) ("L") 0 (Hint.simple ("x")) []
    (CodeGenerated.mk (CODE_TESTER_CHECK_HEAD ++ ("EXPR")) [] [("T")]) []
    ("T") [] rfl rfl rfl rfl rfl

/-- C3: the violation-handling snippet of a raiser emits the non-fatal
warning snippet exactly when the call-site-specific configuration switch is
set (the parameter switch when `is_param` is true, the return switch when it
is false, the door switch when it is none) and the raise snippet otherwise;
the two snippets differ, and the warn branch also binds the warning emitter
into the scope. -/
theorem make_code_raiser_violation_policy_switch (conf : BeartypeConf)
    (func_scope : LexicalScope) (is_param : Option Bool) :
    ((make_code_raiser_violation conf func_scope is_param).fst
      = if (match is_param with
            | some true => conf.is_violation_param_warn
            | some false => conf.is_violation_return_warn
            | none => conf.is_violation_door_warn) then CODE_WARN_VIOLATION
        else CODE_RAISE_VIOLATION) ∧
    CODE_WARN_VIOLATION ≠ CODE_RAISE_VIOLATION ∧
    ((match is_param with
      | some true => conf.is_violation_param_warn
      | some false => conf.is_violation_return_warn
      | none => conf.is_violation_door_warn) = true →
      scope_has_key (make_code_raiser_violation conf func_scope is_param).snd
        ARG_NAME_WARN = true) := by
  refine ⟨?_, by decide, ?_⟩
  · cases is_param with
    | none =>
      cases h : conf.is_violation_door_warn <;>
        simp [make_code_raiser_violation, h]
    | some b =>
      cases b
      · cases h : conf.is_violation_return_warn <;>
          simp [make_code_raiser_violation, h]
      · cases h : conf.is_violation_param_warn <;>
          simp [make_code_raiser_violation, h]
  · intro hw
    cases is_param with
    | none =>
      simp only at hw
      simp [make_code_raiser_violation, hw, scope_has_key_scope_set]
    | some b =>
      cases b <;> simp only at hw <;>
        simp [make_code_raiser_violation, hw, scope_has_key_scope_set]

/-- C3 witness: under the all-warn configuration and the parameter call-site
flag, the generated snippet is the warning snippet and the warning emitter is
bound into the scope. -/
theorem make_code_raiser_violation_policy_switch_witness :
    (make_code_raiser_violation conf_warn [] (some true)).fst
      = CODE_WARN_VIOLATION ∧
    scope_has_key (make_code_raiser_violation conf_warn [] (some true)).snd
      ARG_NAME_WARN = true := by
  have h := make_code_raiser_violation_policy_switch conf_warn [] (some true)
  exact ⟨by simpa using h.1, h.2.2 rfl⟩

/-- C4: calling the tester factory twice with the same hint and configuration
returns the identical cached artifact: the second call returns exactly the
memoized result of the first, invokes the code factory zero times, and leaves
the factory state unchanged. -/
theorem make_func_tester_idempotent_cached (env : Env) (hint : Hint)
    (conf : BeartypeConf) (st : FactoryState) :
    (make_func_tester env hint conf
        (make_func_tester env hint conf st).state).result
      = (make_func_tester env hint conf st).result ∧
    (make_func_tester env hint conf
        (make_func_tester env hint conf st).state).code_factory_calls = 0 ∧
    (make_func_tester env hint conf
        (make_func_tester env hint conf st).state).state
      = (make_func_tester env hint conf st).state :=
  make_func_tester_second_call env hint conf st

/-- C5 counterexample: the claim that two testers from two factory calls for
the same hint and configuration agree when each is applied once to the same
value fails, because each application draws its own per-call random integer
and sampled container checks depend on that draw: in `env_base` the same
artifact returns true under draw zero and false under draw one. -/
theorem make_func_tester_repeat_agree_counterexample : ¬ c5_claim_prop := by
  intro h
  have hx := h env_base (Hint.simple ("s")) conf0 st0 Value.vnone 0 1
    checker_env_base checker_env_base rfl rfl
  exact absurd hx (by decide)

/-- C5 amended: two factory calls for the same hint and configuration return
the identical artifact, so two applications to the same value agree whenever
they use the same per-call random draw (in particular always for checks that
ignore the draw). -/
theorem make_func_tester_repeat_agree_same_draw (env : Env) (hint : Hint)
    (conf : BeartypeConf) (st : FactoryState) (v : Value) (r : Nat)
    (t1 t2 : Checker)
    (h1 : (make_func_tester env hint conf st).result = Except.ok t1)
    (h2 : (make_func_tester env hint conf
      (make_func_tester env hint conf st).state).result = Except.ok t2) :
    checker_call env t1 v r = checker_call env t2 v r := by
  have hs := (make_func_tester_second_call env hint conf st).1
  rw [h2, h1] at hs
  cases hs
  rfl

/-- C5 amended witness: in the concrete base environment the two calls return
the same artifact and both applications under the same draw agree. -/
theorem make_func_tester_repeat_agree_same_draw_witness :
    checker_call env_base checker_env_base Value.vnone 0
      = checker_call env_base checker_env_base Value.vnone 0 :=
  make_func_tester_repeat_agree_same_draw env_base (Hint.simple ("s")) conf0
    st0 Value.vnone 0 checker_env_base checker_env_base rfl rfl

/-- C6: every exception raised during configuration validation, hint
sanitization, compilation, or synthesis propagates out of the factory with
the same exception kind, transformed only by replacing the placeholder in its
message with the call-site label. -/
theorem make_func_checker_error_propagation (env : Env) (hint : Hint)
    (conf : BeartypeConf)
    (mcc : Hint → BeartypeConf → Except Err CodeGenerated × List String)
    (label : String) (k : Nat) :
    (∀ e : Err, env.die_unless_conf conf = Except.error e →
      (_make_func_checker env hint conf mcc label k).result
        = Except.error
            (Err.mk e.kind (String.replace e.msg EXCEPTION_PLACEHOLDER label))) ∧
    (∀ (u : Unit) (e : Err) (ws : List String),
      env.die_unless_conf conf = Except.ok u →
      env.sanify_hint_root_statement hint conf = (Except.error e, ws) →
      (_make_func_checker env hint conf mcc label k).result
        = Except.error
            (Err.mk e.kind (String.replace e.msg EXCEPTION_PLACEHOLDER label))) ∧
    (∀ (u : Unit) (hint_sane : Hint) (ws : List String) (e : Err)
        (ws2 : List String),
      env.die_unless_conf conf = Except.ok u →
      env.sanify_hint_root_statement hint conf = (Except.ok hint_sane, ws) →
      env.is_hint_ignorable hint_sane = false →
      mcc hint_sane conf = (Except.error e, ws2) →
      (_make_func_checker env hint conf mcc label k).result
        = Except.error
            (Err.mk e.kind (String.replace e.msg EXCEPTION_PLACEHOLDER label))) ∧
    (∀ (u : Unit) (hint_sane : Hint) (ws : List String) (cg : CodeGenerated)
        (ws2 : List String) (e : Err),
      env.die_unless_conf conf = Except.ok u →
      env.sanify_hint_root_statement hint conf = (Except.ok hint_sane, ws) →
      env.is_hint_ignorable hint_sane = false →
      mcc hint_sane conf = (Except.ok cg, ws2) →
      cg.hint_refs_type_basename = [] →
      env.make_func (FUNC_CHECKER_NAME_STEM ++ nat_decimal k)
        (env.make_func_signature (FUNC_CHECKER_NAME_STEM ++ nat_decimal k)
          cg.func_scope conf ++ cg.func_code)
        cg.func_scope conf.is_debug = Except.error e →
      (_make_func_checker env hint conf mcc label k).result
        = Except.error
            (Err.mk e.kind (String.replace e.msg EXCEPTION_PLACEHOLDER label))) := by
  refine ⟨?_, ?_, ?_, ?_⟩
  · intro e hc
    simp [_make_func_checker, hc, reraise_exception_placeholder]
  · intro u e ws hc hs
    simp [_make_func_checker, hc, hs, reraise_exception_placeholder]
  · intro u hint_sane ws e ws2 hc hs hig hm
    simp [_make_func_checker, hc, hs, hig, hm, reraise_exception_placeholder]
  · intro u hint_sane ws cg ws2 e hc hs hig hm hr hmf
    simp [_make_func_checker, hc, hs, hig, hm, hr, hmf,
      reraise_exception_placeholder]

/-- C6 witness: a concrete sanitization failure propagates with the
unsupported-hint kind and with the placeholder in its message replaced by the
call-site label. -/
theorem make_func_checker_error_propagation_witness :
    (_make_func_checker env_sanify_err Hint.any conf0
        (make_code_tester_check env_sanify_err) ("ctx ") 0).result
      = Except.error
          (Err.mk ErrKind.hintUnsupported
            (String.replace
              (("unsupported hint ") ++ EXCEPTION_PLACEHOLDER ++ ("tail"))
              EXCEPTION_PLACEHOLDER ("ctx "))) := by
  have h := make_func_checker_error_propagation env_sanify_err Hint.any conf0
    (make_code_tester_check env_sanify_err) ("ctx ") 0
  exact h.2.1 ()
    (Err.mk ErrKind.hintUnsupported
      (("unsupported hint ") ++ EXCEPTION_PLACEHOLDER ++ ("tail")))
    [] rfl rfl

/-- C7 counterexample: the claim that every warning emitted during
validation, sanitization, compilation and synthesis is re-issued fails,
because a request that short-circuits at an ignorable hint returns before the
re-issue step: a sanitization warning in `env_warn_ignorable` is captured but
never re-issued. -/
theorem make_func_checker_warning_reissue_counterexample : ¬ c7_claim_prop := by
  intro h
  have hx := h env_warn_ignorable Hint.any conf0
    (make_code_tester_check env_warn_ignorable) ("x") 0
  exact absurd (congrArg List.length hx) (by decide)

/-- C7 amended: warnings captured during a factory request are re-issued,
with the placeholder in their messages replaced by the call-site label,
exactly when the request returns a synthesized artifact; a request that
short-circuits at an ignorable hint or terminates in an exception re-issues
nothing. -/
theorem make_func_checker_warning_reissue_on_synthesis (env : Env)
    (hint : Hint) (conf : BeartypeConf)
    (mcc : Hint → BeartypeConf → Except Err CodeGenerated × List String)
    (label : String) (k : Nat) :
    (_make_func_checker env hint conf mcc label k).warnings_emitted
      = match (_make_func_checker env hint conf mcc label k).result with
        | Except.ok (Checker.synthesized _ _ _) =>
          reissue_warnings_placeholder
            (captured_warnings env hint conf mcc) label
        | _ => [] := by
  unfold _make_func_checker captured_warnings
  repeat' split
  all_goals simp_all

/-- C8: every synthesized checker is named by the fixed stem followed by the
decimal rendering of the current value of the process-wide counter, the
counter advances past that value, and a second factory request that also
synthesizes receives a different name. -/
theorem make_func_checker_name_uniquification (env env2 : Env)
    (h1 h2 : Hint) (c1 c2 : BeartypeConf)
    (mcc1 mcc2 : Hint → BeartypeConf → Except Err CodeGenerated × List String)
    (l1 l2 : String) (k : Nat) (n1 cd1 : String) (sc1 : LexicalScope)
    (n2 cd2 : String) (sc2 : LexicalScope)
    (ha : (_make_func_checker env h1 c1 mcc1 l1 k).result
      = Except.ok (Checker.synthesized n1 cd1 sc1))
    (hb : (_make_func_checker env2 h2 c2 mcc2 l2
        ((_make_func_checker env h1 c1 mcc1 l1 k).counter_next)).result
      = Except.ok (Checker.synthesized n2 cd2 sc2)) :
    n1 = FUNC_CHECKER_NAME_STEM ++ nat_decimal k ∧ n1 ≠ n2 := by
  obtain ⟨hn1, hc1⟩ :=
    make_func_checker_ok_synthesized env h1 c1 mcc1 l1 k n1 cd1 sc1 ha
  rw [hc1] at hb
  obtain ⟨hn2, _⟩ :=
    make_func_checker_ok_synthesized env2 h2 c2 mcc2 l2 (k + 1) n2 cd2 sc2 hb
  refine ⟨hn1, ?_⟩
  rw [hn1, hn2]
  intro hcontra
  exact absurd (checker_name_inj hcontra) (by omega)

/-- C8 witness: two successive synthesizing requests in the concrete base
environment receive the names for counters zero and one, which differ. -/
theorem make_func_checker_name_uniquification_witness :
    (FUNC_CHECKER_NAME_STEM ++ nat_decimal 0)
      = FUNC_CHECKER_NAME_STEM ++ nat_decimal 0 ∧
    (FUNC_CHECKER_NAME_STEM ++ nat_decimal 0)
      ≠ (FUNC_CHECKER_NAME_STEM ++ nat_decimal 1) :=
  make_func_checker_name_uniquification env_base env_base
    (Hint.simple ("a")) (Hint.simple ("b")) conf0 conf0
    (make_code_tester_check env_base) (make_code_tester_check env_base)
    EXCEPTION_LABEL_DEFAULT EXCEPTION_LABEL_DEFAULT 0
    (FUNC_CHECKER_NAME_STEM ++ nat_decimal 0)
    (env_base.make_func_signature (FUNC_CHECKER_NAME_STEM ++ nat_decimal 0)
      [] conf0 ++ (CODE_TESTER_CHECK_HEAD ++ ("EXPR"))) []
    (FUNC_CHECKER_NAME_STEM ++ nat_decimal 1)
    (env_base.make_func_signature (FUNC_CHECKER_NAME_STEM ++ nat_decimal 1)
      [] conf0 ++ (CODE_TESTER_CHECK_HEAD ++ ("EXPR"))) []
    rfl rfl

/-- C9: for a hint sanitizing to an ignorable hint, the raiser factory
returns the same constant-true ignorable singleton as the tester factory,
which returns the boolean true (not none) for every value and never raises or
warns, whatever the configuration's warn-versus-raise switches. -/
theorem make_func_raiser_ignorable_singleton (env : Env) (hint : Hint)
    (conf : BeartypeConf) (st st' : FactoryState) (hint_sane : Hint)
    (ws : List String)
    (hconf : env.die_unless_conf conf = Except.ok ())
    (hsan : env.sanify_hint_root_statement hint conf
      = (Except.ok hint_sane, ws))
    (hig : env.is_hint_ignorable hint_sane = true)
    (hmr : find_memo st.raiser_memo (hint, conf) = none)
    (hmt : find_memo st'.tester_memo (hint, conf) = none) :
    (make_func_raiser env hint conf st).result
      = Except.ok Checker.ignorable ∧
    (make_func_raiser env hint conf st).result
      = (make_func_tester env hint conf st').result ∧
    ∀ (v : Value) (r : Nat),
      checker_call env Checker.ignorable v r
        = InvokeOutcome.returned (Value.vbool true) := by
  simp [make_func_raiser, make_func_tester, hmr, hmt, _make_func_checker,
    hconf, hsan, hig, checker_call]

/-- C9 witness: with every warn switch enabled, the concrete raiser factory
returns the ignorable singleton identical to the tester factory's and it
returns true on a sample value. -/
theorem make_func_raiser_ignorable_singleton_witness :
    (make_func_raiser env_ignorable Hint.any conf_warn st0).result
      = Except.ok Checker.ignorable ∧
    (make_func_raiser env_ignorable Hint.any conf_warn st0).result
      = (make_func_tester env_ignorable Hint.any conf_warn st0).result ∧
    checker_call env_ignorable Checker.ignorable Value.vnone 3
      = InvokeOutcome.returned (Value.vbool true) := by
  have h := make_func_raiser_ignorable_singleton env_ignorable Hint.any
    conf_warn st0 st0 Hint.any [] rfl rfl rfl rfl rfl
  exact ⟨h.1, h.2.1, h.2.2 Value.vnone 3⟩

theorem gen_arg_nil : generate_additional_arg_string [] = ("") := rfl

theorem gen_arg_single (a : String) :
    generate_additional_arg_string [a] = (", ") ++ a := rfl

theorem gen_arg_cons (a b : String) (r : List String) :
    generate_additional_arg_string (a :: b :: r)
      = (", ") ++ a ++ generate_additional_arg_string (b :: r) := rfl

theorem spec_arg_cons (a : String) (r : List String) :
    additional_arg_string_spec (a :: r)
      = (", ") ++ a ++ additional_arg_string_spec r := rfl

theorem generate_additional_arg_string_eq (names : List String) :
    generate_additional_arg_string names = additional_arg_string_spec names := by
  induction names with
  | nil => rfl
  | cons a rest ih =>
    cases rest with
    | nil => simp [gen_arg_single, spec_arg_cons, additional_arg_string_spec]
    | cons b r => rw [gen_arg_cons, spec_arg_cons, ih]

/-- C10: subscripting the argumentative validator factory with a pure-Python
callable whose parameters are the target followed by the additional argument
names yields a validator whose check expression is the uniquified scope name
applied to the root-object placeholder followed by the additional argument
names in order, whose scope binds that name to the callable, whose target
argument name is the first parameter, and whose remaining argument names are
the rest; and the additional-argument renderer equals the concatenation over
the names of a comma-space followed by the name. -/
theorem is_argumentative_getitem_spec (f : PyFunc) (t : String)
    (rest : List String) (hp : f.isPurePython = true)
    (ha : f.argNames = t :: rest) :
    (∃ v : BeartypeValidator,
      is_argumentative_getitem f = Except.ok v ∧
      v.is_valid = f ∧
      v.is_valid_code = (add_func_scope_attr f []).fst ++ ("({obj}")
        ++ additional_arg_string_spec rest ++ (")") ∧
      v.is_valid_code_locals
        = [((add_func_scope_attr f []).fst, Obj.validatorFunc f)] ∧
      v.is_valid_target_arg_name = t ∧
      v.is_valid_remaining_arg_names = rest) ∧
    ∀ names : List String,
      generate_additional_arg_string names
        = additional_arg_string_spec names := by
  refine ⟨?_, generate_additional_arg_string_eq⟩
  have hd : die_unless_validator_tester f = Except.ok () := by
    simp [die_unless_validator_tester, hp, ha]
  refine ⟨BeartypeValidator.mk f
    ((add_func_scope_attr f []).fst ++ ("({obj}")
      ++ generate_additional_arg_string rest ++ (")"))
    (add_func_scope_attr f []).snd t rest, ?_, rfl, ?_, ?_, rfl, rfl⟩
  · simp [is_argumentative_getitem, hd, ha, String.append_assoc]
  · simp [generate_additional_arg_string_eq, String.append_assoc]
  · simp [add_func_scope_attr, scope_set]

/-- C10 witness: a concrete three-parameter validator produces the expected
check expression, scope binding, target name and remaining names, and the
renderer agrees with the concatenation on a concrete list. -/
theorem is_argumentative_getitem_spec_witness :
    (∃ v : BeartypeValidator,
      is_argumentative_getitem fW = Except.ok v ∧
      v.is_valid = fW ∧
      v.is_valid_code = (add_func_scope_attr fW []).fst ++ ("({obj}")
        ++ additional_arg_string_spec [("a1"), ("a2")] ++ (")") ∧
      v.is_valid_code_locals
        = [((add_func_scope_attr fW []).fst, Obj.validatorFunc fW)] ∧
      v.is_valid_target_arg_name = ("t") ∧
      v.is_valid_remaining_arg_names = [("a1"), ("a2")]) ∧
    generate_additional_arg_string [("a1"), ("a2")]
      = additional_arg_string_spec [("a1"), ("a2")] := by
  have h := is_argumentative_getitem_spec fW ("t") [("a1"), ("a2")] rfl rfl
  exact ⟨h.1, h.2 [("a1"), ("a2")]⟩




